import Mathlib

/-!
Verification of the faceted, entitlement-aware search client distilled from
`cortex_search_app.py` and `tpcds_cortex_search_app.py`.

The embedding models:
- cell values of a pandas DataFrame (`CellValue`): strings, numbers (as `Rat`,
  standing in for Python floats on the decimal literals that occur here) and
  nulls (NaN / missing);
- DataFrame construction from a list of records (`mkDataFrame`): the columns
  are the union of the record keys in first-appearance order, and a record
  missing a column holds null there;
- `pd.to_numeric(..., errors='coerce')` as a per-cell coercion through a
  decimal parser, unparsable values becoming null;
- `pd.to_datetime(..., errors='coerce')` as a per-cell check for an
  ISO-like `YYYY-MM-DD` prefix (no claim depends on the exact date semantics,
  only on the fact that the conversion is per-cell and preserves row count);
- `df.sort_values(col, ascending=False)` as a deterministic descending sort
  on the column key (`sortDesc`); note the pandas default sort kind is
  quicksort, which is not stable — the embedding does not assert stability;
- the backend search call as a function argument
  `backend : SearchRequest → Except String (List RawRow)`; the `Except.error`
  branch models a raised exception, and elapsed wall-clock time is passed in
  as the measured `(end_time - start_time) * 1000` value;
- Python's `ZeroDivisionError` on float division by zero as `Except.error`.
-/

/-- A dynamic value held in one cell of a result row / DataFrame. -/
inductive CellValue where
  | vstr (s : String)
  | vnum (q : Rat)
  | vnull
deriving DecidableEq, Repr

/-- A raw backend result row: a mapping of column name to value
(a Python dict, so keys are unique). -/
abbrev RawRow := List (String × CellValue)

/-- Fold a list of decimal digit characters into a natural number. -/
def natOfDigits (cs : List Char) : Nat :=
  cs.foldl (fun n c => 10 * n + (c.toNat - 48)) 0

/-- Parse an unsigned decimal literal (`"900"`, `"1200.50"`, `".5"`, `"12."`),
as accepted by Python `float`. Returns `none` on anything else. -/
def parseUnsignedDecimal (cs : List Char) : Option Rat :=
  let ip := cs.takeWhile Char.isDigit
  let rest := cs.dropWhile Char.isDigit
  match rest with
  | [] => if ip.isEmpty then none else some (natOfDigits ip : Rat)
  | '.' :: fp =>
      if ip.isEmpty && fp.isEmpty then none
      else if fp.all Char.isDigit then
        some ((natOfDigits ip : Rat) + (natOfDigits fp : Rat) / ((10 : Rat) ^ fp.length))
      else none
  | _ => none

/-- Parse a decimal literal with an optional leading minus sign, after
stripping surrounding whitespace, as Python `float` does. -/
def parseDecimal (s : String) : Option Rat :=
  match s.trim.toList with
  | '-' :: cs => (parseUnsignedDecimal cs).map (fun q => -q)
  | cs => parseUnsignedDecimal cs

/-- Per-cell semantics of `pd.to_numeric(col, errors='coerce')`:
numbers pass through, parsable strings become numbers, everything else
(including NaN/null) becomes null. -/
def toNumericCell : CellValue → CellValue
  | .vnum q => .vnum q
  | .vstr s => match parseDecimal s with
      | some q => .vnum q
      | none => .vnull
  | .vnull => .vnull

/-- Check for an ISO-like `YYYY-MM-DD` date prefix. -/
def isIsoDatePrefix (s : String) : Bool :=
  match s.toList with
  | y1 :: y2 :: y3 :: y4 :: '-' :: m1 :: m2 :: '-' :: d1 :: d2 :: _ =>
      [y1, y2, y3, y4, m1, m2, d1, d2].all Char.isDigit
  | _ => false

/-- Per-cell semantics of `pd.to_datetime(col, errors='coerce')`:
date-like strings and numbers (epoch timestamps) survive, anything
unparsable becomes null. -/
def toDatetimeCell : CellValue → CellValue
  | .vnum q => .vnum q
  | .vstr s => if isIsoDatePrefix s then .vstr s else .vnull
  | .vnull => .vnull

/-- A pandas DataFrame: a column list plus rows aligned with it
(each row has one cell per column). -/
structure DataFrame where
  cols : List String
  rows : List (List CellValue)
deriving DecidableEq, Repr

/-- The cell of an aligned row at a named column (null when absent). -/
def cellOf (cols : List String) (r : List CellValue) (c : String) : CellValue :=
  (r.get? (cols.indexOf c)).getD .vnull

/-- Columns of `pd.DataFrame(records)`: union of the record keys in
first-appearance order. -/
def dfColsOf (records : List RawRow) : List String :=
  records.foldl
    (fun acc r => r.foldl (fun a kv => if a.contains kv.1 then a else a ++ [kv.1]) acc) []

/-- `pd.DataFrame(records)`: a record missing a column holds null (NaN). -/
def mkDataFrame (records : List RawRow) : DataFrame :=
  let cols := dfColsOf records
  ⟨cols, records.map (fun r => cols.map (fun c => (r.lookup c).getD .vnull))⟩

/-- Apply a per-cell function to one named column of every row
(`df[col] = f(df[col])`). -/
def mapCol (df : DataFrame) (c : String) (f : CellValue → CellValue) : DataFrame :=
  let i := df.cols.indexOf c
  ⟨df.cols, df.rows.map (fun r => r.set i (f ((r.get? i).getD .vnull)))⟩

/-- `get_column_name(df, possible_names)` from both apps: the first candidate
name present among the DataFrame's columns, else `None`. -/
def get_column_name (df : DataFrame) (possible_names : List String) : Option String :=
  possible_names.find? (fun n => df.cols.contains n)

/-- `convert_data_types` (shared shape of both apps, parameterized by the
app-specific column lists): numeric coercion on every present numeric column,
datetime coercion on every present date column, then drop the rows whose
resolved mandatory numeric column (first present alias of `dropPriority`)
is null. Returns the input unchanged when the frame is empty. -/
def convertDataTypesCore (numericCols dateCols dropPriority : List String)
    (df : DataFrame) : DataFrame :=
  if df.rows.isEmpty then df
  else
    let df1 := numericCols.foldl
      (fun d c => if d.cols.contains c then mapCol d c toNumericCell else d) df
    let df2 := dateCols.foldl
      (fun d c => if d.cols.contains c then mapCol d c toDatetimeCell else d) df1
    match dropPriority.find? (fun c => df2.cols.contains c) with
    | none => df2
    | some c => ⟨df2.cols, df2.rows.filter (fun r => cellOf df2.cols r c ≠ .vnull)⟩

/-- `convert_data_types` of `cortex_search_app.py`: the mandatory numeric
column is `AMOUNT` checked before `amount`. -/
def convert_data_types (df : DataFrame) : DataFrame :=
  convertDataTypesCore
    ["AMOUNT", "amount", "ENTITLED_USER_COUNT", "entitled_user_count"]
    ["TRANSACTION_DATE", "transaction_date"]
    ["AMOUNT", "amount"] df

/-- `convert_data_types` of `tpcds_cortex_search_app.py`: the mandatory
numeric column is `unit_price` checked before `UNIT_PRICE`. -/
def convert_data_types_tpcds (df : DataFrame) : DataFrame :=
  convertDataTypesCore
    ["unit_price", "UNIT_PRICE", "total_sales", "TOTAL_SALES",
     "quantity", "QUANTITY", "profit", "PROFIT", "current_price", "CURRENT_PRICE"]
    ["transaction_date", "TRANSACTION_DATE"]
    ["unit_price", "UNIT_PRICE"] df

/-- Numeric sort key of a cell (non-numbers sort as 0; after the null-row
drop the sorted column holds only numbers). -/
def toRatD : CellValue → Rat
  | .vnum q => q
  | _ => 0

/-- Insert an element into a descending-sorted list, before the first
element of strictly smaller or equal-or-smaller key. -/
def insertDesc (key : List CellValue → Rat) (x : List CellValue) :
    List (List CellValue) → List (List CellValue)
  | [] => [x]
  | y :: ys => if key y ≤ key x then x :: y :: ys else y :: insertDesc key x ys

/-- Deterministic descending sort by key (models
`df.sort_values(col, ascending=False)`; the embedding does not assert
stability, since the pandas default sort kind is quicksort). -/
def sortDesc (key : List CellValue → Rat) : List (List CellValue) → List (List CellValue)
  | [] => []
  | x :: xs => insertDesc key x (sortDesc key xs)

/-- `df.sort_values(c, ascending=False).reset_index(drop=True)`. -/
def sort_values_desc (df : DataFrame) (c : String) : DataFrame :=
  ⟨df.cols, sortDesc (fun r => toRatD (cellOf df.cols r c)) df.rows⟩

/-! ### Filter expressions (backend wire shape)

`tpcds_cortex_search_app.py` builds filter dicts in the backend wire shape
directly: leaves `{"@eq"|"@in"|"@gte"|"@lte"|"@contains": {field: value}}`
and composites `{"@and": [expr, ...]}`. -/

/-- A dynamic value appearing inside a filter leaf. -/
inductive FilterValue where
  | fnum (q : Rat)
  | fint (n : Int)
  | fstr (s : String)
deriving DecidableEq, Repr

/-- A backend filter expression in wire shape. -/
inductive FilterExpr where
  | eq (field : String) (v : FilterValue)
  | inSet (field : String) (vs : List FilterValue)
  | gte (field : String) (v : FilterValue)
  | lte (field : String) (v : FilterValue)
  | contains (field : String) (v : FilterValue)
  | and (fs : List FilterExpr)

/-- Whether a filter expression is an `@and` composite node. -/
def FilterExpr.is_and : FilterExpr → Bool
  | .and _ => true
  | _ => false

/-- The `price_range` facet of the TPCDS UI slider, with domain `[0, 1000]`. -/
structure PriceRange where
  min : Rat
  max : Rat
deriving DecidableEq, Repr

/-- The `filters` dict assembled by `main()` of the TPCDS app. A `none`
field models both the key being absent and its value being `None`. -/
structure Filters where
  price_range : Option PriceRange
  year_range : Option (List Int)
  customer_gender : Option (List String)
  marital_status : Option (List String)
  category_name : Option (List String)

/-- The price-range condition built by the TPCDS filter compiler: itself an
`@and` of the two bound leaves. -/
def price_condition (pr : PriceRange) : FilterExpr :=
  .and [.gte "unit_price" (.fnum pr.min), .lte "unit_price" (.fnum pr.max)]

/-- The shared single-vs-multi selection rule: one selected value gives
`@eq`, several give `@in`, and an empty / missing selection (falsy in
Python) contributes nothing. -/
def eqOrIn (field : String) (vs : List FilterValue) : List FilterExpr :=
  match vs with
  | [] => []
  | [v] => [.eq field v]
  | _ => [.inSet field vs]

/-- The `filter_conditions` list of `search_tpcds_cortex_optimized`, in
source order: price range (emitted only when `min > 0`), then year, gender,
marital status and category selections. -/
def filter_conditions (f : Filters) : List FilterExpr :=
  (match f.price_range with
   | some pr => if 0 < pr.min then [price_condition pr] else []
   | none => []) ++
  eqOrIn "year" ((f.year_range.getD []).map .fint) ++
  eqOrIn "customer_gender" ((f.customer_gender.getD []).map .fstr) ++
  eqOrIn "marital_status" ((f.marital_status.getD []).map .fstr) ++
  eqOrIn "category_name" ((f.category_name.getD []).map .fstr)

/-- The `filter_object` combination step of `search_tpcds_cortex_optimized`:
no conditions give no filter, a single condition is passed through
unwrapped, two or more are wrapped in `@and`. -/
def filter_object (filters : Option Filters) : Option FilterExpr :=
  match filters with
  | none => none
  | some f =>
    match filter_conditions f with
    | [] => none
    | [c] => some c
    | cs => some (.and cs)

/-! ### Search requests and the query executor boundary -/

/-- The request handed to `cortex_search_service.search(...)`. -/
structure SearchRequest where
  query : String
  columns : List String
  filter : Option FilterExpr
  limit : Nat

/-- The `essential_columns` list of `cortex_search_app.py`. -/
def essential_columns : List String :=
  ["txn_id", "region_name", "description", "amount", "transaction_type",
   "category", "merchant_name", "transaction_date", "entitled_user_ids"]

/-- The `essential_columns` list of `tpcds_cortex_search_app.py`. -/
def tpcds_essential_columns : List String :=
  ["item_key", "customer_key", "store_key", "date_key",
   "item_description", "product_name", "brand_name", "category_name",
   "store_name", "store_location", "customer_info",
   "unit_price", "total_sales", "quantity", "profit",
   "customer_gender", "marital_status", "transaction_date", "year"]

/-- The mandatory entitlement filter of `cortex_search_app.py`:
`{"@contains": {"entitled_user_ids": user_id}}`. -/
def entitlement_filter (user_id : String) : FilterExpr :=
  .contains "entitled_user_ids" (.fstr user_id)

/-- The search request issued by `search_transactions_cortex_optimized`:
on a non-blank query the query text itself, otherwise the sentinel term
`"transaction"`; both branches carry the entitlement filter. -/
def searchRequestOf (user_id search_query : String) (limit : Nat) : SearchRequest :=
  if search_query.trim ≠ "" then
    { query := search_query, columns := essential_columns,
      filter := some (entitlement_filter user_id), limit := limit }
  else
    { query := "transaction", columns := essential_columns,
      filter := some (entitlement_filter user_id), limit := limit }

/-- The search request issued by `search_tpcds_cortex_optimized` (sentinel
term `"products transactions"` for a blank query; filter compiled from the
facet selection, possibly `None`). -/
def tpcdsRequestOf (search_query : String) (filters : Option Filters) (limit : Nat) :
    SearchRequest :=
  if search_query.trim ≠ "" then
    { query := search_query, columns := tpcds_essential_columns,
      filter := filter_object filters, limit := limit }
  else
    { query := "products transactions", columns := tpcds_essential_columns,
      filter := filter_object filters, limit := limit }

/-- What the query functions return: the normalized DataFrame, the measured
response time, the raw result count, and the diagnostic message shown via
`st.error` on the failure path (`none` on success). -/
structure SearchOutcome where
  df : DataFrame
  response_time : Rat
  result_count : Nat
  diagnostic : Option String

/-- Result processing of `search_transactions_cortex_optimized` /
`search_tpcds_cortex_optimized` (parameterized by the per-app conversion and
sort-column aliases): build the DataFrame, and when non-empty convert data
types and sort descending by the resolved primary numeric column. -/
def processResultsCore (numericCols dateCols dropPriority sortPriority : List String)
    (results : List RawRow) : DataFrame :=
  let df := mkDataFrame results
  if df.rows.isEmpty then df
  else
    let df1 := convertDataTypesCore numericCols dateCols dropPriority df
    match get_column_name df1 sortPriority with
    | some c => sort_values_desc df1 c
    | none => df1

/-- Result processing of `search_transactions_cortex_optimized`. -/
def processResults (results : List RawRow) : DataFrame :=
  processResultsCore
    ["AMOUNT", "amount", "ENTITLED_USER_COUNT", "entitled_user_count"]
    ["TRANSACTION_DATE", "transaction_date"]
    ["AMOUNT", "amount"] ["AMOUNT", "amount"] results

/-- Result processing of `search_tpcds_cortex_optimized`. -/
def processResults_tpcds (results : List RawRow) : DataFrame :=
  processResultsCore
    ["unit_price", "UNIT_PRICE", "total_sales", "TOTAL_SALES",
     "quantity", "QUANTITY", "profit", "PROFIT", "current_price", "CURRENT_PRICE"]
    ["transaction_date", "TRANSACTION_DATE"]
    ["unit_price", "UNIT_PRICE"] ["unit_price", "UNIT_PRICE"] results

/-- `search_transactions_cortex_optimized(session, user_id, search_query,
limit)`. The single backend call is modeled by applying `backend` to the
compiled request; `elapsed_ms` is the wall-clock `(end - start) * 1000`
measured at the point the Python code reads the clock (the success path
after the response, or the `except` handler on failure — both inclusive of
the call). On failure the function catches every exception and returns an
empty DataFrame, the elapsed time, a zero count and the `st.error`
diagnostic text. -/
def search_transactions_cortex_optimized (user_id search_query : String) (limit : Nat)
    (backend : SearchRequest → Except String (List RawRow)) (elapsed_ms : Rat) :
    SearchOutcome :=
  match backend (searchRequestOf user_id search_query limit) with
  | .error e =>
      { df := ⟨[], []⟩, response_time := elapsed_ms, result_count := 0,
        diagnostic := some ("Cortex Search API Error: " ++ e) }
  | .ok results =>
      { df := processResults results, response_time := elapsed_ms,
        result_count := results.length, diagnostic := none }

/-- `search_tpcds_cortex_optimized(session, search_query, filters, limit)`,
modeled exactly as `search_transactions_cortex_optimized` above. -/
def search_tpcds_cortex_optimized (search_query : String) (filters : Option Filters)
    (limit : Nat) (backend : SearchRequest → Except String (List RawRow))
    (elapsed_ms : Rat) : SearchOutcome :=
  match backend (tpcdsRequestOf search_query filters limit) with
  | .error e =>
      { df := ⟨[], []⟩, response_time := elapsed_ms, result_count := 0,
        diagnostic := some ("Cortex Search API Error: " ++ e) }
  | .ok results =>
      { df := processResults_tpcds results, response_time := elapsed_ms,
        result_count := results.length, diagnostic := none }

/-! ### Analytics aggregator -/

/-- The numeric (non-null) values of a column. pandas `sum`/`mean`/`max`/`min`
skip NaN, so they are computed over this list. -/
def colNums (df : DataFrame) (c : String) : List Rat :=
  df.rows.filterMap (fun r =>
    match cellOf df.cols r c with
    | .vnum q => some q
    | _ => none)

/-- pandas `Series.nunique`: the number of distinct non-null values. -/
def nuniqueCol (df : DataFrame) (c : String) : Nat :=
  ((df.rows.map (fun r => cellOf df.cols r c)).filter (fun v => v ≠ .vnull)).dedup.length

/-- The summary dict built by `get_transaction_summary` for a non-empty
frame. `avg_amount` is modeled with `Rat` division (division by zero gives 0,
standing in for pandas' NaN mean of an empty column). `max_amount` /
`min_amount` / the date range are `none` when the column is absent or has no
non-null value. -/
structure TransactionSummary where
  total_transactions : Nat
  total_amount : Rat
  avg_amount : Rat
  max_amount : Option Rat
  min_amount : Option Rat
  regions_covered : Nat
  categories : Nat
  merchants : Nat
  transaction_types : Nat
  date_earliest : Option CellValue
  date_latest : Option CellValue
  user_info : String
deriving DecidableEq, Repr

/-- Lexicographic minimum of the non-null cells of a column (models
`df[date_col].min()` on ISO-formatted date strings). -/
def colStrMin (df : DataFrame) (c : String) : Option CellValue :=
  ((df.rows.map (fun r => cellOf df.cols r c)).filterMap (fun v =>
    match v with | .vstr s => some s | _ => none)).min?.map .vstr

/-- Lexicographic maximum of the non-null cells of a column. -/
def colStrMax (df : DataFrame) (c : String) : Option CellValue :=
  ((df.rows.map (fun r => cellOf df.cols r c)).filterMap (fun v =>
    match v with | .vstr s => some s | _ => none)).max?.map .vstr

/-- `get_transaction_summary(df, user_info)` of `cortex_search_app.py`.
For an empty frame the Python function returns the empty dict `{}` — a
mapping with no entries at all (in particular no count field): that return
is modeled as `none`. Otherwise every statistic is computed over the resolved
columns, with `0` substituted whenever a column does not resolve, matching
the `if col else 0` pattern of the source. -/
def get_transaction_summary (df : DataFrame) (user_info : String) :
    Option TransactionSummary :=
  if df.rows.isEmpty then none
  else
    let amount_col := get_column_name df ["AMOUNT", "amount"]
    let region_col := get_column_name df ["REGION_NAME", "region_name"]
    let category_col := get_column_name df ["CATEGORY", "category"]
    let merchant_col := get_column_name df ["MERCHANT_NAME", "merchant_name"]
    let txn_type_col := get_column_name df ["TRANSACTION_TYPE", "transaction_type"]
    let date_col := get_column_name df ["TRANSACTION_DATE", "transaction_date"]
    some
      { total_transactions := df.rows.length
        total_amount := match amount_col with
          | some c => (colNums df c).sum
          | none => 0
        avg_amount := match amount_col with
          | some c => (colNums df c).sum / ((colNums df c).length : Rat)
          | none => 0
        max_amount := amount_col.bind (fun c => (colNums df c).max?)
        min_amount := amount_col.bind (fun c => (colNums df c).min?)
        regions_covered := match region_col with
          | some c => nuniqueCol df c
          | none => 0
        categories := match category_col with
          | some c => nuniqueCol df c
          | none => 0
        merchants := match merchant_col with
          | some c => nuniqueCol df c
          | none => 0
        transaction_types := match txn_type_col with
          | some c => nuniqueCol df c
          | none => 0
        date_earliest := date_col.bind (fun c => colStrMin df c)
        date_latest := date_col.bind (fun c => colStrMax df c)
        user_info := user_info }

/-! ### Performance classifier and metrics display -/

/-- The latency-tier classification shared by both
`display_performance_metrics` functions: `<300` Excellent, `<800` Good,
`<2000` Acceptable, otherwise Slow. -/
def performance_status (response_time : Rat) : String :=
  if response_time < 300 then "Excellent"
  else if response_time < 800 then "Good"
  else if response_time < 2000 then "Acceptable"
  else "Slow"

/-- The `result_count/(response_time/1000)` efficiency figure interpolated
into the `st.info` f-string of `display_performance_metrics`. Python float
division raises `ZeroDivisionError` when the denominator is `0.0`; the raised
exception is modeled as `Except.error`. -/
def efficiency_throughput (result_count : Nat) (response_time : Rat) :
    Except String Rat :=
  if response_time / 1000 = 0 then .error "ZeroDivisionError"
  else .ok ((result_count : Rat) / (response_time / 1000))

/-- `display_performance_metrics(response_time, result_count, summary)`
(identical in both apps as far as classification and throughput go): the
rendered tier label together with the throughput figure. The whole display
raises (`Except.error`) when the throughput division raises. -/
def display_performance_metrics (response_time : Rat) (result_count : Nat) :
    Except String (String × Rat) :=
  match efficiency_throughput result_count response_time with
  | .error e => .error e
  | .ok thr => .ok (performance_status response_time, thr)

/-! ### Shared helper lemmas -/

/-- `mkDataFrame` yields one frame row per record. -/
theorem mkDataFrame_rows_length (records : List RawRow) :
    (mkDataFrame records).rows.length = records.length := by
  simp [mkDataFrame]

/-- A per-column cell map preserves the number of rows. -/
theorem mapCol_rows_length (df : DataFrame) (c : String) (f : CellValue → CellValue) :
    (mapCol df c f).rows.length = df.rows.length := by
  simp [mapCol]

/-- The column-conversion fold of `convert_data_types` preserves the number
of rows. -/
theorem foldl_convert_rows_length (f : CellValue → CellValue) (l : List String)
    (df : DataFrame) :
    (l.foldl (fun d c => if d.cols.contains c then mapCol d c f else d) df).rows.length =
      df.rows.length := by
  induction l generalizing df with
  | nil => rfl
  | cons c cs ih =>
      rw [List.foldl_cons, ih]
      split
      · exact mapCol_rows_length df c f
      · rfl

/-- Type conversion plus the null-row drop never adds rows. -/
theorem convertDataTypesCore_rows_length_le (n d p : List String) (df : DataFrame) :
    (convertDataTypesCore n d p df).rows.length ≤ df.rows.length := by
  simp only [convertDataTypesCore]
  split
  · exact le_refl _
  · split
    · rw [foldl_convert_rows_length, foldl_convert_rows_length]
    · exact le_trans (List.length_filter_le _ _)
        (le_of_eq (by rw [foldl_convert_rows_length, foldl_convert_rows_length]))

/-- Inserting into the descending-sorted list adds exactly one row. -/
theorem insertDesc_length (key : List CellValue → Rat) (x : List CellValue)
    (l : List (List CellValue)) : (insertDesc key x l).length = l.length + 1 := by
  induction l with
  | nil => rfl
  | cons y ys ih =>
      rw [insertDesc]
      split
      · rfl
      · simp [ih]

/-- The descending sort preserves the number of rows. -/
theorem sortDesc_length (key : List CellValue → Rat) (l : List (List CellValue)) :
    (sortDesc key l).length = l.length := by
  induction l with
  | nil => rfl
  | cons x xs ih => rw [sortDesc, insertDesc_length, ih]; rfl

/-- `sort_values_desc` preserves the number of rows. -/
theorem sort_values_desc_rows_length (df : DataFrame) (c : String) :
    (sort_values_desc df c).rows.length = df.rows.length := by
  simp [sort_values_desc, sortDesc_length]

/-- Result processing never yields more rows than the raw response. -/
theorem processResultsCore_rows_length_le (n d p s : List String) (rs : List RawRow) :
    (processResultsCore n d p s rs).rows.length ≤ rs.length := by
  simp only [processResultsCore]
  split
  · exact le_of_eq (mkDataFrame_rows_length rs)
  · split
    · rw [sort_values_desc_rows_length]
      exact le_trans (convertDataTypesCore_rows_length_le _ _ _ _)
        (le_of_eq (mkDataFrame_rows_length rs))
    · exact le_trans (convertDataTypesCore_rows_length_le _ _ _ _)
        (le_of_eq (mkDataFrame_rows_length rs))

/-- A single-vs-multi selection never yields an `@and` composite node. -/
theorem eqOrIn_not_and (field : String) (vs : List FilterValue) (c : FilterExpr)
    (hc : c ∈ eqOrIn field vs) : c.is_and = false := by
  match vs with
  | [] => simp [eqOrIn] at hc
  | [v] => simp [eqOrIn] at hc; subst hc; rfl
  | v :: v' :: rest => simp [eqOrIn] at hc; subst hc; rfl

/-! ### Claims -/

/-- Claim C1: in the entitled deployment, every backend search call issued by
`search_transactions_cortex_optimized` — on both the non-empty-query branch
and the empty-query branch — carries the mandatory entitlement predicate
`Contains(entitled_user_ids, user_id)` as its filter, and no search is ever
sent to the backend without it: the query function consults the backend only
at the one request `searchRequestOf user_id search_query limit`, whose filter
is always the entitlement predicate. -/
theorem c1_entitlement_filter_always_present :
    (∀ (user_id search_query : String) (limit : Nat),
      (searchRequestOf user_id search_query limit).filter =
        some (FilterExpr.contains "entitled_user_ids" (.fstr user_id))) ∧
    (∀ (user_id search_query : String) (limit : Nat) (elapsed_ms : Rat)
      (b₁ b₂ : SearchRequest → Except String (List RawRow)),
      b₁ (searchRequestOf user_id search_query limit) =
        b₂ (searchRequestOf user_id search_query limit) →
      search_transactions_cortex_optimized user_id search_query limit b₁ elapsed_ms =
        search_transactions_cortex_optimized user_id search_query limit b₂ elapsed_ms) := by
  constructor
  · intro u q l
    unfold searchRequestOf
    split <;> rfl
  · intro u q l t b₁ b₂ h
    unfold search_transactions_cortex_optimized
    rw [h]

/-- Witness for C1 at a concrete user, query and limit: the request filter
is the entitlement predicate, and two backends agreeing on the single issued
request produce identical outcomes. -/
theorem c1_entitlement_filter_always_present_witness :
    (searchRequestOf "user_001" "restaurant" 50).filter =
      some (FilterExpr.contains "entitled_user_ids" (.fstr "user_001")) ∧
    search_transactions_cortex_optimized "user_001" "restaurant" 50
        (fun _ => .ok []) 120 =
      search_transactions_cortex_optimized "user_001" "restaurant" 50
        (fun r => if r.limit = 50 then .ok [] else .error "boom") 120 :=
  ⟨c1_entitlement_filter_always_present.1 "user_001" "restaurant" 50,
   c1_entitlement_filter_always_present.2 "user_001" "restaurant" 50 120 _ _
     (by with_unfolding_all rfl)⟩

/-- The C2 scenario input: two raw rows naming the amount column with
different casing. -/
def c2_raw_rows : List RawRow :=
  [[("AMOUNT", .vstr "1200.50")], [("amount", .vstr "900")]]

/-- The amount cells of the normalized C2 frame under the resolved column. -/
def c2_normalized_amounts : List CellValue :=
  (processResults c2_raw_rows).rows.map
    (fun r => cellOf (processResults c2_raw_rows).cols r "AMOUNT")

set_option maxRecDepth 80000 in
/-- Counterexample to claim C2: on the raw rows `{"AMOUNT": "1200.50"}` and
`{"amount": "900"}` the normalized set does NOT contain both rows as
`[1200.50, 900.0]` — the frame gets two columns, the resolved column is
`AMOUNT`, the second row's `AMOUNT` cell is null after coercion, and the row
is dropped: only `[1200.50]` remains. -/
theorem c2_second_row_dropped_counterexample :
    c2_normalized_amounts = [CellValue.vnum (1200.5 : Rat)] ∧
    (processResults c2_raw_rows).rows.length = 1 := by
  constructor
  · with_unfolding_all decide
  · with_unfolding_all decide

set_option maxRecDepth 80000 in
/-- Claim C2 as amended: both raw rows enter a two-row frame; column
resolution is per frame, not per row — `AMOUNT` (first alias present) wins;
the row carrying only lowercase `amount` holds null under `AMOUNT` and is
dropped by the mandatory-field null drop, so the normalized set is the
single row with amount `1200.50` (trivially in descending order). -/
theorem c2_frame_level_resolution_amended :
    (mkDataFrame c2_raw_rows).rows.length = 2 ∧
    get_column_name (processResults c2_raw_rows) ["AMOUNT", "amount"] = some "AMOUNT" ∧
    (processResults c2_raw_rows).rows = [[CellValue.vnum (1200.5 : Rat), CellValue.vnull]] := by
  refine ⟨by rfl, by with_unfolding_all decide, by with_unfolding_all decide⟩

/-- Counterexample to claim C3: the range `{min: 0, max: 500}` keeps the
lower bound at the domain minimum but lowers the upper bound below the
domain maximum `1000`, yet the compiler emits NO predicate for it — the
emission test is only `min > 0`. -/
theorem c3_zero_min_range_omitted_counterexample :
    filter_conditions ⟨some ⟨0, 500⟩, none, none, none, none⟩ = [] ∧
    filter_object (some ⟨some ⟨0, 500⟩, none, none, none, none⟩) = none ∧
    (500 : Rat) < 1000 := by
  refine ⟨by rfl, by rfl, by norm_num⟩

/-- Claim C3 as amended: the numeric-range predicate is emitted iff the
selection's lower bound is strictly above the domain minimum `0`; any range
with lower bound `0` is omitted — including the full domain, but also
ranges whose upper bound is below the domain maximum. -/
theorem c3_range_emitted_iff_min_positive (f : Filters) (pr : PriceRange)
    (h : f.price_range = some pr) :
    (0 < pr.min → price_condition pr ∈ filter_conditions f) ∧
    (pr.min ≤ 0 → ∀ c ∈ filter_conditions f, c.is_and = false) := by
  obtain ⟨fpr, fy, fg, fm, fc⟩ := f
  simp only at h
  subst h
  constructor
  · intro hm
    simp [filter_conditions, hm]
  · intro hm c hc
    simp only [filter_conditions, if_neg (not_lt.mpr hm), List.nil_append,
      List.mem_append] at hc
    rcases hc with ((hc | hc) | hc) | hc
    all_goals exact eqOrIn_not_and _ _ _ hc

/-- Witness for C3 at concrete ranges: `{min: 100, max: 500}` is emitted,
and with `{min: 0, max: 500}` no range predicate appears. -/
theorem c3_range_emitted_iff_min_positive_witness :
    price_condition ⟨100, 500⟩ ∈
      filter_conditions ⟨some ⟨100, 500⟩, none, none, none, none⟩ ∧
    (∀ c ∈ filter_conditions ⟨some ⟨0, 500⟩, none, none, none, none⟩,
      c.is_and = false) :=
  ⟨(c3_range_emitted_iff_min_positive _ _ rfl).1 (by norm_num),
   (c3_range_emitted_iff_min_positive _ _ rfl).2 (by norm_num)⟩

set_option maxRecDepth 80000 in
/-- Counterexample to claim C4: the inverted range `{min: 500, max: 100}`
does NOT fail with a ValidationError — it compiles to the unsatisfiable
predicate `@and[@gte 500, @lte 100]`, the backend call is still executed
(its one-row response is processed into the outcome), and no diagnostic is
raised. -/
theorem c4_inverted_range_not_validated_counterexample :
    filter_object (some ⟨some ⟨500, 100⟩, none, none, none, none⟩) =
      some (.and [.gte "unit_price" (.fnum 500), .lte "unit_price" (.fnum 100)]) ∧
    (search_tpcds_cortex_optimized "" (some ⟨some ⟨500, 100⟩, none, none, none, none⟩) 50
        (fun _ => .ok [[("unit_price", .vstr "10")]]) 10).result_count = 1 ∧
    (search_tpcds_cortex_optimized "" (some ⟨some ⟨500, 100⟩, none, none, none, none⟩) 50
        (fun _ => .ok [[("unit_price", .vstr "10")]]) 10).diagnostic = none := by
  refine ⟨by rfl, by with_unfolding_all rfl, by with_unfolding_all rfl⟩

/-- Claim C4 as amended: no bound validation exists. A numeric range whose
lower bound exceeds its upper bound (with positive lower bound, so it is
emitted at all) compiles without error into `@and[@gte min, @lte max]`, and
the query is executed against the backend normally — no ValidationError is
raised before or instead of the call. -/
theorem c4_no_range_validation (pr : PriceRange) (hmin : 0 < pr.min)
    (_hinv : pr.max < pr.min) :
    filter_conditions ⟨some pr, none, none, none, none⟩ = [price_condition pr] ∧
    (∀ (q : String) (l : Nat) (t : Rat)
       (backend : SearchRequest → Except String (List RawRow)) (rows : List RawRow),
       backend (tpcdsRequestOf q (some ⟨some pr, none, none, none, none⟩) l) = .ok rows →
       (search_tpcds_cortex_optimized q (some ⟨some pr, none, none, none, none⟩) l
          backend t).diagnostic = none ∧
       (search_tpcds_cortex_optimized q (some ⟨some pr, none, none, none, none⟩) l
          backend t).result_count = rows.length) := by
  constructor
  · simp [filter_conditions, hmin, eqOrIn]
  · intro q l t backend rows h
    unfold search_tpcds_cortex_optimized
    rw [h]
    exact ⟨rfl, rfl⟩

/-- Witness for C4 at the inverted range `{min: 500, max: 100}`: the range
compiles and a query with it completes without diagnostic. -/
theorem c4_no_range_validation_witness :
    filter_conditions ⟨some ⟨500, 100⟩, none, none, none, none⟩ =
      [price_condition ⟨500, 100⟩] ∧
    (search_tpcds_cortex_optimized "electronics"
        (some ⟨some ⟨500, 100⟩, none, none, none, none⟩)
        50 (fun _ => .ok []) 75).diagnostic = none :=
  ⟨(c4_no_range_validation ⟨500, 100⟩ (by norm_num) (by norm_num)).1,
   ((c4_no_range_validation ⟨500, 100⟩ (by norm_num) (by norm_num)).2 "electronics" 50 75
      (fun _ => .ok []) [] rfl).1⟩

/-- Counterexample to claim C5: a facet selection emitting exactly ONE
predicate — a lone numeric range — nevertheless compiles to an `@and` node,
because the range condition is itself `@and[@gte, @lte]`; so "the compiled
filter is an And node iff the number of emitted predicates is at least 2"
is false. -/
theorem c5_lone_range_is_and_node_counterexample :
    (filter_conditions ⟨some ⟨100, 500⟩, none, none, none, none⟩).length = 1 ∧
    (filter_object (some ⟨some ⟨100, 500⟩, none, none, none, none⟩)).map FilterExpr.is_and =
      some true := by
  refine ⟨by rfl, by rfl⟩

/-- Claim C5 as amended: the combination step itself adds an `@and` wrapper
iff at least two conditions were emitted — zero conditions give no filter
and a single condition is passed through unwrapped — but an unwrapped
numeric-range condition is already an `@and` of its two bounds, so a lone
range still surfaces as an And node. -/
theorem c5_combiner_cases (f : Filters) :
    (filter_conditions f = [] → filter_object (some f) = none) ∧
    (∀ c, filter_conditions f = [c] → filter_object (some f) = some c) ∧
    (2 ≤ (filter_conditions f).length →
      filter_object (some f) = some (.and (filter_conditions f))) := by
  refine ⟨?_, ?_, ?_⟩
  · intro h
    simp [filter_object, h]
  · intro c h
    simp [filter_object, h]
  · intro h
    rcases hc : filter_conditions f with _ | ⟨c, _ | ⟨c', cs⟩⟩
    · rw [hc] at h; simp at h
    · rw [hc] at h; simp at h
    · simp [filter_object, hc]

/-- Witness for C5 at concrete selections: no selection gives no filter, a
single gender gives the unwrapped `@eq`, gender plus marital status gives
an `@and` of the two. -/
theorem c5_combiner_cases_witness :
    filter_object (some ⟨none, none, none, none, none⟩) = none ∧
    filter_object (some ⟨none, none, some ["M"], none, none⟩) =
      some (.eq "customer_gender" (.fstr "M")) ∧
    filter_object (some ⟨none, none, some ["M"], some ["S"], none⟩) =
      some (.and [.eq "customer_gender" (.fstr "M"), .eq "marital_status" (.fstr "S")]) :=
  ⟨(c5_combiner_cases _).1 rfl,
   (c5_combiner_cases _).2.1 _ rfl,
   (c5_combiner_cases _).2.2 (by rfl)⟩

/-- Claim C6: every failure of the backend search call is caught at the query
executor boundary of `search_transactions_cortex_optimized`: the function
returns an empty well-formed result frame, the wall-clock elapsed time
measured inclusive of the failure path, a zero result count and a non-empty
diagnostic message; the single backend consultation is retried by nothing,
and no exception escapes (the function is total and yields a
`SearchOutcome`). -/
theorem c6_backend_failure_boundary (user_id search_query : String) (limit : Nat)
    (elapsed_ms : Rat) (backend : SearchRequest → Except String (List RawRow))
    (e : String)
    (h : backend (searchRequestOf user_id search_query limit) = .error e) :
    search_transactions_cortex_optimized user_id search_query limit backend elapsed_ms =
      { df := ⟨[], []⟩, response_time := elapsed_ms, result_count := 0,
        diagnostic := some ("Cortex Search API Error: " ++ e) } ∧
    ("Cortex Search API Error: " ++ e) ≠ "" := by
  constructor
  · unfold search_transactions_cortex_optimized
    rw [h]
  · intro hcontra
    have hlen := congrArg String.length hcontra
    rw [String.length_append] at hlen
    have h25 : ("Cortex Search API Error: " : String).length = 25 := rfl
    have h0 : ("" : String).length = 0 := rfl
    omega

/-- Witness for C6: a backend failing after 4500 ms yields the empty frame,
the 4500 ms elapsed time, a zero count and a non-empty diagnostic. -/
theorem c6_backend_failure_boundary_witness :
    search_transactions_cortex_optimized "user_003" "" 50
        (fun _ => .error "network unreachable") 4500 =
      { df := ⟨[], []⟩, response_time := 4500, result_count := 0,
        diagnostic := some ("Cortex Search API Error: " ++ "network unreachable") } ∧
    ("Cortex Search API Error: " ++ "network unreachable") ≠ "" :=
  c6_backend_failure_boundary "user_003" "" 50 4500 _ "network unreachable" rfl

/-- Counterexample to claim C7: at `elapsed_ms = 0` the metrics display DOES
perform the division by zero — Python float division raises
`ZeroDivisionError` — instead of reporting the throughput as unbounded or
omitting it. -/
theorem c7_zero_elapsed_division_counterexample :
    display_performance_metrics 0 5 = .error "ZeroDivisionError" := by
  with_unfolding_all rfl

/-- Claim C7 as amended: throughput is computed as
`resultCount / (elapsed_ms / 1000)` for every `elapsed_ms > 0` (alongside
the latency-tier label); at `elapsed_ms = 0` the display raises
`ZeroDivisionError` — there is no unbounded/omitted special case. -/
theorem c7_throughput_formula_positive_elapsed (response_time : Rat)
    (result_count : Nat) (h : 0 < response_time) :
    display_performance_metrics response_time result_count =
      .ok (performance_status response_time,
           (result_count : Rat) / (response_time / 1000)) := by
  have hpos : 0 < response_time / 1000 := by positivity
  simp [display_performance_metrics, efficiency_throughput, hpos.ne']

/-- Witness for C7 at 500 ms and 5 results. -/
theorem c7_throughput_formula_positive_elapsed_witness :
    display_performance_metrics 500 5 =
      .ok (performance_status 500, (5 : Rat) / (500 / 1000)) :=
  c7_throughput_formula_positive_elapsed 500 5 (by norm_num)

/-- Counterexample to claim C8: on an empty normalized set
`get_transaction_summary` returns Python's empty dict `{}` — a summary
mapping with no entries at all (modeled as `none`), NOT a zero-valued
summary carrying a count field equal to 0. -/
theorem c8_empty_summary_has_no_count_counterexample :
    get_transaction_summary ⟨[], []⟩ "Alice" = none ∧
    ∀ s : TransactionSummary, get_transaction_summary ⟨[], []⟩ "Alice" ≠ some s := by
  refine ⟨rfl, ?_⟩
  intro s hs
  exact Option.noConfusion hs

/-- Claim C8 as amended: for every NON-empty normalized result set the
summary's count equals the length of the normalized sequence; an empty set
yields the empty summary mapping (no fields, in particular no count)
without raising an error. -/
theorem c8_summary_count_equals_length (df : DataFrame) (user_info : String)
    (h : df.rows ≠ []) :
    (get_transaction_summary df user_info).map TransactionSummary.total_transactions =
      some df.rows.length := by
  unfold get_transaction_summary
  rw [if_neg (by simp [h])]
  rfl

/-- Witness for C8 on a one-row frame. -/
theorem c8_summary_count_equals_length_witness :
    (get_transaction_summary ⟨["AMOUNT"], [[CellValue.vnum 5]]⟩ "Bob").map
        TransactionSummary.total_transactions = some 1 :=
  c8_summary_count_equals_length ⟨["AMOUNT"], [[CellValue.vnum 5]]⟩ "Bob" (by simp)

/-- Claim C10: in both query executors the returned result count is the
number of raw rows in the backend response, taken before type coercion and
the mandatory-field null-row drop; the normalized frame never has more rows
than that, and whenever at least one row is dropped during normalization
the returned count strictly exceeds the normalized frame's row count. -/
theorem c10_result_count_precedes_normalization :
    (∀ (user_id search_query : String) (limit : Nat) (elapsed_ms : Rat)
       (backend : SearchRequest → Except String (List RawRow)) (rows : List RawRow),
       backend (searchRequestOf user_id search_query limit) = .ok rows →
       (search_transactions_cortex_optimized user_id search_query limit backend
          elapsed_ms).result_count = rows.length ∧
       (search_transactions_cortex_optimized user_id search_query limit backend
          elapsed_ms).df.rows.length ≤ rows.length ∧
       ((search_transactions_cortex_optimized user_id search_query limit backend
          elapsed_ms).df.rows.length < rows.length →
        (search_transactions_cortex_optimized user_id search_query limit backend
          elapsed_ms).df.rows.length <
        (search_transactions_cortex_optimized user_id search_query limit backend
          elapsed_ms).result_count)) ∧
    (∀ (search_query : String) (filters : Option Filters) (limit : Nat)
       (elapsed_ms : Rat)
       (backend : SearchRequest → Except String (List RawRow)) (rows : List RawRow),
       backend (tpcdsRequestOf search_query filters limit) = .ok rows →
       (search_tpcds_cortex_optimized search_query filters limit backend
          elapsed_ms).result_count = rows.length ∧
       (search_tpcds_cortex_optimized search_query filters limit backend
          elapsed_ms).df.rows.length ≤ rows.length ∧
       ((search_tpcds_cortex_optimized search_query filters limit backend
          elapsed_ms).df.rows.length < rows.length →
        (search_tpcds_cortex_optimized search_query filters limit backend
          elapsed_ms).df.rows.length <
        (search_tpcds_cortex_optimized search_query filters limit backend
          elapsed_ms).result_count)) := by
  constructor
  · intro u q l t backend rows h
    unfold search_transactions_cortex_optimized
    rw [h]
    refine ⟨rfl, processResultsCore_rows_length_le _ _ _ _ _, ?_⟩
    intro hlt
    exact hlt
  · intro q fs l t backend rows h
    unfold search_tpcds_cortex_optimized
    rw [h]
    refine ⟨rfl, processResultsCore_rows_length_le _ _ _ _ _, ?_⟩
    intro hlt
    exact hlt

/-- Witness for C10: a two-row response (one of which has a null amount and
is dropped) reports a raw count of 2 while the frame keeps at most 2 rows. -/
theorem c10_result_count_precedes_normalization_witness :
    (search_transactions_cortex_optimized "user_001" "" 50
        (fun _ => .ok [[("AMOUNT", .vstr "12")], [("AMOUNT", .vnull)]]) 100).result_count =
      2 ∧
    (search_transactions_cortex_optimized "user_001" "" 50
        (fun _ => .ok [[("AMOUNT", .vstr "12")], [("AMOUNT", .vnull)]]) 100).df.rows.length ≤
      2 :=
  ⟨(c10_result_count_precedes_normalization.1 "user_001" "" 50 100 _
      [[("AMOUNT", .vstr "12")], [("AMOUNT", .vnull)]] rfl).1,
   (c10_result_count_precedes_normalization.1 "user_001" "" 50 100 _
      [[("AMOUNT", .vstr "12")], [("AMOUNT", .vnull)]] rfl).2.1⟩
